import Mathlib

/-!
Verification development for the weather-dashboard proxy route
(`app/api/weather/route.ts`, the `GET` handler).  The route is embedded
shallowly: provider JSON numbers become rationals, JavaScript strings become
Lean strings (code points; the test vectors are ASCII so this matches UTF-16
units), absent/null/falsy values become `Option.none`, and the two phases of
the handler (pre-fetch request handling, post-fetch payload normalization)
become pure Lean functions.
-/

namespace WeatherRoute

/-- JavaScript `Math.round`: round half toward positive infinity, that is
the floor of x + 1/2.  Written on the numerator and denominator directly so
that concrete values reduce inside the kernel; `jsRound_eq_floor` below
proves this form equal to the floor form. -/
def jsRound (x : ℚ) : ℤ := (2 * x.num + x.den) / (2 * (x.den : ℤ))

/-- A rational carries no fractional part. -/
def isInt (q : ℚ) : Prop := q.den = 1

instance (q : ℚ) : Decidable (isInt q) := by unfold isInt; infer_instance

/-- JavaScript truthiness of a nullable string: null/undefined and the empty
string are falsy, every other string is truthy. -/
def strTruthy : Option String → Bool
  | none => false
  | some s => !(s == "")

/-- JavaScript `a || d` where `a` is a nullable string and `d` the fallback. -/
def jsOrStr (o : Option String) (d : String) : String :=
  match o with
  | some s => if s == "" then d else s
  | none => d

/-- Does `pat` occur at the head of `s`? (Both as character lists.) -/
def leadsWith : List Char → List Char → Bool
  | [], _ => true
  | _ :: _, [] => false
  | a :: as, b :: bs => a == b && leadsWith as bs

/-- Does `pat` occur anywhere inside `s`? -/
def containsSub (s pat : List Char) : Bool :=
  match s with
  | [] => pat.isEmpty
  | _ :: rest => leadsWith pat s || containsSub rest pat

/-- JavaScript `String.prototype.replace` with a string pattern: replace only
the first occurrence of `pat` in `s` by `repl`. -/
def replaceFirstL (pat repl : List Char) : List Char → List Char
  | [] => if pat.isEmpty then repl else []
  | c :: rest =>
      if leadsWith pat (c :: rest) then repl ++ (c :: rest).drop pat.length
      else c :: replaceFirstL pat repl rest

/-- String wrapper for `replaceFirstL`; models `url.replace(apiKey, ...)`. -/
def jsReplaceFirst (s pat repl : String) : String :=
  ⟨replaceFirstL pat.data repl.data s.data⟩

/-- String wrapper for `containsSub`. -/
def strContains (s pat : String) : Bool := containsSub s.data pat.data

/-- Uppercase hexadecimal digit. -/
def hexDigitChar (n : Nat) : Char :=
  Char.ofNat (if n < 10 then 48 + n else 55 + n)

/-- UTF-8 bytes of a Unicode scalar value. -/
def utf8Bytes (n : Nat) : List Nat :=
  if n < 128 then [n]
  else if n < 2048 then [192 + n / 64, 128 + n % 64]
  else if n < 65536 then [224 + n / 4096, 128 + (n / 64) % 64, 128 + n % 64]
  else [240 + n / 262144, 128 + (n / 4096) % 64, 128 + (n / 64) % 64, 128 + n % 64]

/-- Characters `encodeURIComponent` leaves unescaped (ECMA-262):
letters, digits, and - _ . ! ~ * apostrophe ( ). -/
def isUnreservedURI (c : Char) : Bool :=
  c.isAlpha || c.isDigit || c == '-' || c == '_' || c == '.' || c == '!' ||
  c == '~' || c == '*' || c.toNat == 39 || c == '(' || c == ')'

/-- Percent-encoding of one character. -/
def encodeChar (c : Char) : List Char :=
  if isUnreservedURI c then [c]
  else (utf8Bytes c.toNat).flatMap (fun b => ['%', hexDigitChar (b / 16), hexDigitChar (b % 16)])

/-- JavaScript `encodeURIComponent`. -/
def encodeURIComponent (s : String) : String := ⟨s.data.flatMap encodeChar⟩

/-- JavaScript `toLowerCase` restricted to ASCII, applied character by
character (the behavior of `String.toLower`, written structurally). -/
def jsToLower (s : String) : String := ⟨s.data.map Char.toLower⟩

/-! ## Provider payload model (the decoded upstream JSON)

Mirrors exactly the fields the route reads.  `Option.none` stands for a
field that is absent, null, or otherwise falsy where the route tests it. -/

structure Condition where
  text : String
  icon : String
  deriving DecidableEq, Repr

structure HourRec where
  time : String
  temp_c : ℚ
  humidity : ℚ
  wind_kph : ℚ
  condition : Condition
  deriving DecidableEq, Repr

structure DayBlock where
  avgtemp_c : ℚ
  mintemp_c : ℚ
  maxtemp_c : ℚ
  condition : Condition
  deriving DecidableEq, Repr

structure AstroRec where
  sunrise : String
  sunset : String
  deriving DecidableEq, Repr

/-- One element of `data.forecast.forecastday`.  `hour = none` models an
`hour` field that is absent or not an array (the route guards with
`today.hour && Array.isArray(today.hour)`). -/
structure ForecastDay where
  date_epoch : ℚ
  day : DayBlock
  astro : AstroRec
  hour : Option (List HourRec)
  deriving DecidableEq, Repr

structure Location where
  name : String
  country : String
  tz_id : String
  lat : ℚ
  lon : ℚ
  deriving DecidableEq, Repr

structure Current where
  temp_c : ℚ
  condition : Condition
  humidity : ℚ
  wind_kph : ℚ
  wind_degree : ℚ
  uv : ℚ
  vis_km : ℚ
  pressure_mb : ℚ
  feelslike_c : ℚ
  deriving DecidableEq, Repr

/-- One element of `data.alerts.alert`.  String fields are nullable; the
route applies JavaScript truthiness to them. -/
structure AlertRec where
  event : Option String
  headline : Option String
  desc : Option String
  severity : Option String
  deriving DecidableEq, Repr

structure AlertsBlock where
  alert : Option (List AlertRec)
  deriving DecidableEq, Repr

structure ForecastBlock where
  forecastday : Option (List ForecastDay)
  deriving DecidableEq, Repr

/-- The decoded provider response, before the structural check. -/
structure WeatherPayload where
  location : Option Location
  current : Option Current
  forecast : Option ForecastBlock
  alerts : Option AlertsBlock
  deriving DecidableEq, Repr

/-! ## Phase 1 of the handler (route lines 121-147): credential check,
location-input selection, outbound URL construction, redacted logging.

The handler makes at most one outbound fetch; `FetchPlan.call` records that
single call (its query string, the line written to the log, and the URL),
and `FetchPlan.err` records an early error response with no outbound call. -/

inductive FetchPlan where
  | err (status : Nat) (error : String)
  | call (query : String) (logged : String) (url : String)
  deriving DecidableEq, Repr

/-- Lines 136-143: coordinates are tested first (`if (lat && lon)`), then the
city, else no query is available. -/
def queryParamOf (city lat lon : Option String) : Option String :=
  if strTruthy lat && strTruthy lon then some (lat.getD "" ++ "," ++ lon.getD "")
  else if strTruthy city then some (city.getD "")
  else none

/-- Line 146: the templated provider URL. -/
def buildUrl (key q : String) : String :=
  "https://api.weatherapi.com/v1/forecast.json?key=" ++ key ++ "&q=" ++
    encodeURIComponent q ++ "&days=7&aqi=no&alerts=yes"

/-- Lines 127-147 of the route: the credential is tested before the location
input; on success exactly one outbound call is planned and the logged line is
the URL with the first occurrence of the credential replaced. -/
def routeStart (apiKey city lat lon : Option String) : FetchPlan :=
  if strTruthy apiKey then
    let key := apiKey.getD ""
    match queryParamOf city lat lon with
    | some q =>
        let url := buildUrl key q
        .call q ("Fetching weather data from: " ++ jsReplaceFirst url key "[API_KEY]") url
    | none => .err 400 "Please provide either a city name or coordinates"
  else
    .err 500 "Weather service is not configured. Please contact the administrator."

/-! ## Normalized output model (route lines 169-254) -/

structure HourOut where
  time : String
  temp : ℚ
  condition : String
  humidity : ℚ
  windSpeed : ℚ
  deriving DecidableEq, Repr

structure DayOut where
  dt : ℚ
  temp : ℚ
  min : ℚ
  max : ℚ
  condition : String
  description : String
  icon : String
  deriving DecidableEq, Repr

structure DaySummaryOut where
  temp : ℚ
  min : ℚ
  max : ℚ
  condition : String
  description : String
  icon : String
  deriving DecidableEq, Repr

structure AlertOut where
  title : String
  description : String
  severity : String
  deriving DecidableEq, Repr

structure Coordinates where
  lat : ℚ
  lon : ℚ
  deriving DecidableEq, Repr

/-- The formatted 200-response body.  `tomorrowDaySummary = none` models the
JavaScript `null` the route assigns (the key is still serialized);
`alerts = none` models `undefined` (the key is dropped by serialization). -/
structure FormattedResponse where
  city : String
  country : String
  temperature : ℚ
  condition : String
  description : String
  humidity : ℚ
  windSpeed : ℚ
  windDirection : ℚ
  uvIndex : ℚ
  visibility : ℚ
  pressure : ℚ
  feelsLike : ℚ
  high : ℚ
  low : ℚ
  sunrise : String
  sunset : String
  timezone : String
  coordinates : Coordinates
  hourlyForecast : List HourOut
  tomorrowHourlyForecast : List HourOut
  tomorrowDaySummary : Option DaySummaryOut
  dailyForecast : List DayOut
  alerts : Option (List AlertOut)
  deriving DecidableEq, Repr

/-- Lines 178-184 and 193-199: one hourly entry. -/
def mkHour (h : HourRec) : HourOut :=
  { time := (h.time.drop 11).take 5
    temp := (jsRound h.temp_c : ℚ)
    condition := jsToLower h.condition.text
    humidity := h.humidity
    windSpeed := (jsRound h.wind_kph : ℚ) }

/-- Lines 176-185 and 192-200: an absent or non-array hour field yields an
empty list. -/
def hourListOf (o : Option (List HourRec)) : List HourOut :=
  match o with
  | some hs => hs.map mkHour
  | none => []

/-- Lines 188-200: the hourly list for `forecastday[1]`, when it exists. -/
def tomorrowHourlyOf : List ForecastDay → List HourOut
  | [] => []
  | t :: _ => hourListOf t.hour

/-- Lines 201-208: the day summary built from an aggregate day block. -/
def mkDailySummary (d : DayBlock) : DaySummaryOut :=
  { temp := (jsRound d.avgtemp_c : ℚ)
    min := (jsRound d.mintemp_c : ℚ)
    max := (jsRound d.maxtemp_c : ℚ)
    condition := jsToLower d.condition.text
    description := d.condition.text
    icon := d.condition.icon }

/-- Lines 189-209: `tomorrowDaySummary` stays `null` unless a second
forecast day exists. -/
def tomorrowSummaryOf : List ForecastDay → Option DaySummaryOut
  | [] => none
  | t :: _ => some (mkDailySummary t.day)

/-- Lines 212-220: one entry of the 7-day forecast. -/
def mkDailyEntry (fd : ForecastDay) : DayOut :=
  { dt := fd.date_epoch
    temp := (jsRound fd.day.avgtemp_c : ℚ)
    min := (jsRound fd.day.mintemp_c : ℚ)
    max := (jsRound fd.day.maxtemp_c : ℚ)
    condition := jsToLower fd.day.condition.text
    description := fd.day.condition.text
    icon := fd.day.condition.icon }

/-- Line 225, kept exactly as the source computes it.  The expression is
`desc?.substring(0, 200) + (desc?.length > 200 ? "..." : "") || ""`:
when `desc` is undefined the left operand of `+` is `undefined`, string
concatenation coerces it to the text "undefined", and the `|| ""` fallback
never fires because that text is truthy. -/
def alertDescription (desc : Option String) : String :=
  let a : String :=
    match desc with
    | some s => s.take 200
    | none => "undefined"
  let b : String :=
    match desc with
    | some s => if 200 < s.length then "..." else ""
    | none => ""
  let c := a ++ b
  if c == "" then "" else c

/-- Lines 223-227: one mapped alert. -/
def mapAlert (a : AlertRec) : AlertOut :=
  { title := jsOrStr a.event (jsOrStr a.headline "Alert")
    description := alertDescription a.desc
    severity := jsOrStr a.severity "moderate" }

/-- Line 173: `data.alerts?.alert || []`. -/
def sourceAlerts (p : WeatherPayload) : List AlertRec :=
  match p.alerts with
  | some b => match b.alert with
    | some l => l
    | none => []
  | none => []

/-- `data.forecast?.forecastday`. -/
def payloadDays (p : WeatherPayload) : Option (List ForecastDay) :=
  match p.forecast with
  | some f => f.forecastday
  | none => none

/-- Lines 230-254: the formatted response body, given the extracted pieces
(`today` is `forecastday[0]`, `rest` the remaining forecast days). -/
def formatResponse (loc : Location) (cur : Current) (today : ForecastDay)
    (rest : List ForecastDay) (alertsSrc : List AlertRec) : FormattedResponse :=
  let mappedAlerts := alertsSrc.map mapAlert
  { city := loc.name
    country := loc.country
    temperature := (jsRound cur.temp_c : ℚ)
    condition := cur.condition.text
    description := cur.condition.text
    humidity := cur.humidity
    windSpeed := (jsRound cur.wind_kph : ℚ)
    windDirection := cur.wind_degree
    uvIndex := cur.uv
    visibility := (jsRound cur.vis_km : ℚ)
    pressure := cur.pressure_mb
    feelsLike := (jsRound cur.feelslike_c : ℚ)
    high := (jsRound today.day.maxtemp_c : ℚ)
    low := (jsRound today.day.mintemp_c : ℚ)
    sunrise := today.astro.sunrise
    sunset := today.astro.sunset
    timezone := loc.tz_id
    coordinates := ⟨loc.lat, loc.lon⟩
    hourlyForecast := hourListOf today.hour
    tomorrowHourlyForecast := tomorrowHourlyOf rest
    tomorrowDaySummary := tomorrowSummaryOf rest
    dailyForecast := (today :: rest).map mkDailyEntry
    alerts := if mappedAlerts.length > 0 then some mappedAlerts else none }

/-- Outcome of the handler once a payload has been decoded: an error JSON
response or the formatted 200 body. -/
inductive GETOutcome where
  | errorOut (status : Nat) (error : String)
  | success (body : FormattedResponse)
  deriving DecidableEq, Repr

/-- Lines 164-262 of the route: the structural check
(`!data.location || !data.current || !data.forecast?.forecastday` gives 502)
followed by the normalization.  With an empty `forecastday` array the source
dereferences `forecastday[0]` (undefined), throws, and the catch-all at line
275 answers 500; that is the `[]` branch here. -/
def processPayload (p : WeatherPayload) : GETOutcome :=
  match p.location, p.current, payloadDays p with
  | some loc, some cur, some fdays =>
      match fdays with
      | [] => .errorOut 500 "An unexpected error occurred while fetching weather data"
      | today :: rest => .success (formatResponse loc cur today rest (sourceAlerts p))
  | _, _, _ => .errorOut 502 "Invalid weather data received from service"

/-- Keys present in the serialized JSON body of a 200 response.
`NextResponse.json` uses JSON serialization, which drops keys whose value is
`undefined` (the alerts ternary, line 253) and keeps keys whose value is
`null` (`tomorrowDaySummary`, line 251). -/
def serializedKeys (r : FormattedResponse) : List String :=
  ["city", "country", "temperature", "condition", "description", "humidity",
   "windSpeed", "windDirection", "uvIndex", "visibility", "pressure",
   "feelsLike", "high", "low", "sunrise", "sunset", "timezone", "coordinates",
   "hourlyForecast", "tomorrowHourlyForecast", "tomorrowDaySummary",
   "dailyForecast"] ++
  (match r.alerts with
   | some _ => ["alerts"]
   | none => [])

/-! ## Projections used to state concrete counterexamples -/

def keysOf : GETOutcome → List String
  | .success r => serializedKeys r
  | .errorOut _ _ => []

def uvIndexOf : GETOutcome → Option ℚ
  | .success r => some r.uvIndex
  | .errorOut _ _ => none

def dailyLenOf : GETOutcome → Option Nat
  | .success r => some r.dailyForecast.length
  | .errorOut _ _ => none

def hourlyLenOf : GETOutcome → Option Nat
  | .success r => some r.hourlyForecast.length
  | .errorOut _ _ => none

def tomorrowHourlyLenOf : GETOutcome → Option Nat
  | .success r => some r.tomorrowHourlyForecast.length
  | .errorOut _ _ => none

def summaryValOf : GETOutcome → Option (Option DaySummaryOut)
  | .success r => some r.tomorrowDaySummary
  | .errorOut _ _ => none

def callQueryOf : FetchPlan → Option String
  | .call q _ _ => some q
  | .err _ _ => none

def loggedOf : FetchPlan → Option String
  | .call _ l _ => some l
  | .err _ _ => none

def statusOfPlan : FetchPlan → Option Nat
  | .err s _ => some s
  | .call _ _ _ => none

/-- The claim-level invariant that every field produced through `Math.round`
is an integer: the current snapshot temperatures, wind speed and visibility,
the hourly temperatures and wind speeds of both hourly lists, the tomorrow
summary temperatures, and the daily min/avg/max temperatures. -/
def roundedFieldsInt (r : FormattedResponse) : Prop :=
  isInt r.temperature ∧ isInt r.feelsLike ∧ isInt r.high ∧ isInt r.low ∧
  isInt r.windSpeed ∧ isInt r.visibility ∧
  (∀ h ∈ r.hourlyForecast, isInt h.temp ∧ isInt h.windSpeed) ∧
  (∀ h ∈ r.tomorrowHourlyForecast, isInt h.temp ∧ isInt h.windSpeed) ∧
  (∀ s, r.tomorrowDaySummary = some s → isInt s.temp ∧ isInt s.min ∧ isInt s.max) ∧
  (∀ d ∈ r.dailyForecast, isInt d.temp ∧ isInt d.min ∧ isInt d.max)

/-! ## Concrete fixtures used by witnesses and counterexamples -/

def loc0 : Location := ⟨"London", "UK", "Europe/London", mkRat 515 10, mkRat (-1) 10⟩

def cond0 : Condition := ⟨"Sunny", "icon.png"⟩

/-- A current block whose uv index is fractional (9/2), as the provider may
send; the route copies it through unrounded. -/
def cur0 : Current := ⟨mkRat 1 2, cond0, 50, 10, 180, mkRat 9 2, 10, 1012, 1⟩

def astro0 : AstroRec := ⟨"06:00 AM", "08:00 PM"⟩

def day0 : DayBlock := ⟨mkRat 1 2, 0, 3, cond0⟩

def h0 : HourRec := ⟨"2024-01-01 05:00", mkRat 3 2, 40, 7, cond0⟩

/-- A forecast day carrying 24 hour records. -/
def fdToday24 : ForecastDay := ⟨1700000000, day0, astro0, some (List.replicate 24 h0)⟩

/-- A forecast day whose hour field is absent. -/
def fdPlain : ForecastDay := ⟨1700000000, day0, astro0, none⟩

/-- An alert with an event name but no description field. -/
def alert0 : AlertRec := ⟨some "Storm", none, none, none⟩

/-- Single-day payload, 24 hourly records, no alerts. -/
def P24 : WeatherPayload := ⟨some loc0, some cur0, some ⟨some [fdToday24]⟩, none⟩

/-- Single-day payload carrying one alert that has no description. -/
def PAlert : WeatherPayload :=
  ⟨some loc0, some cur0, some ⟨some [fdPlain]⟩, some ⟨some [alert0]⟩⟩

/-- Accepted payload with eight forecast days. -/
def P8 : WeatherPayload :=
  ⟨some loc0, some cur0, some ⟨some (List.replicate 8 fdPlain)⟩, none⟩

/-- Accepted payload with seven forecast days. -/
def P7 : WeatherPayload :=
  ⟨some loc0, some cur0, some ⟨some (List.replicate 7 fdPlain)⟩, none⟩

/-- Two-day payload whose second day has no hourly array. -/
def P2 : WeatherPayload :=
  ⟨some loc0, some cur0, some ⟨some [fdToday24, fdPlain]⟩, none⟩

/-- Payload missing the current section. -/
def PnoCur : WeatherPayload := ⟨some loc0, none, some ⟨some [fdPlain]⟩, none⟩

/-! ## Helper lemmas -/

lemma isInt_intCast (z : ℤ) : isInt ((z : ℚ)) := Rat.den_intCast z

/-- The integer form of `jsRound` coincides with the floor of x + 1/2,
which is exactly how JavaScript Math.round behaves on exact values. -/
lemma jsRound_eq_floor (x : ℚ) : jsRound x = ⌊x + 1/2⌋ := by
  have hx : x + 1/2 = ((2 * x.num + (x.den : ℤ) : ℤ) : ℚ) / ((2 * x.den : ℕ) : ℚ) := by
    conv_lhs => rw [← Rat.num_div_den x]
    have hden : ((x.den : ℚ)) ≠ 0 := by
      exact_mod_cast x.den_nz
    push_cast
    field_simp
    ring
  rw [hx, Rat.floor_intCast_div_natCast]
  unfold jsRound
  push_cast
  ring_nf

lemma mem_hourListOf {o : Option (List HourRec)} {h : HourOut}
    (hm : h ∈ hourListOf o) : ∃ a, h = mkHour a := by
  cases o with
  | none => exact absurd hm (by simp [hourListOf])
  | some hs =>
      obtain ⟨a, -, ha⟩ := List.mem_map.1 hm
      exact ⟨a, ha.symm⟩

lemma mem_tomorrowHourlyOf {rest : List ForecastDay} {h : HourOut}
    (hm : h ∈ tomorrowHourlyOf rest) : ∃ a, h = mkHour a := by
  cases rest with
  | nil => exact absurd hm (by simp [tomorrowHourlyOf])
  | cons t ts => exact mem_hourListOf hm

lemma tomorrowSummaryOf_eq {rest : List ForecastDay} {s : DaySummaryOut}
    (hs : tomorrowSummaryOf rest = some s) : ∃ d, s = mkDailySummary d := by
  cases rest with
  | nil => simp [tomorrowSummaryOf] at hs
  | cons t ts => exact ⟨t.day, (Option.some.inj hs).symm⟩

/-- Every rounded field of any formatted response is an integer. -/
lemma formatResponse_rounded (loc : Location) (cur : Current) (today : ForecastDay)
    (rest : List ForecastDay) (als : List AlertRec) :
    roundedFieldsInt (formatResponse loc cur today rest als) := by
  refine ⟨isInt_intCast _, isInt_intCast _, isInt_intCast _, isInt_intCast _,
    isInt_intCast _, isInt_intCast _, ?_, ?_, ?_, ?_⟩
  · intro h hm
    obtain ⟨a, rfl⟩ := mem_hourListOf hm
    exact ⟨isInt_intCast _, isInt_intCast _⟩
  · intro h hm
    obtain ⟨a, rfl⟩ := mem_tomorrowHourlyOf hm
    exact ⟨isInt_intCast _, isInt_intCast _⟩
  · intro s hs
    obtain ⟨d, rfl⟩ := tomorrowSummaryOf_eq hs
    exact ⟨isInt_intCast _, isInt_intCast _, isInt_intCast _⟩
  · intro d hm
    obtain ⟨fd, -, hfd⟩ := List.mem_map.1 hm
    rw [← hfd]
    exact ⟨isInt_intCast _, isInt_intCast _, isInt_intCast _⟩

/-- An accepted payload with a nonempty forecast-day array normalizes to the
formatted response built from its pieces. -/
lemma processPayload_success {p : WeatherPayload} {loc : Location} {cur : Current}
    {today : ForecastDay} {rest : List ForecastDay}
    (hl : p.location = some loc) (hc : p.current = some cur)
    (hf : payloadDays p = some (today :: rest)) :
    processPayload p = .success (formatResponse loc cur today rest (sourceAlerts p)) := by
  unfold processPayload
  rw [hl, hc, hf]

lemma formatResponse_alerts_nil (loc : Location) (cur : Current) (today : ForecastDay)
    (rest : List ForecastDay) :
    (formatResponse loc cur today rest []).alerts = none := rfl

lemma formatResponse_alerts_cons (loc : Location) (cur : Current) (today : ForecastDay)
    (rest : List ForecastDay) (a : AlertRec) (as : List AlertRec) :
    (formatResponse loc cur today rest (a :: as)).alerts =
      some ((a :: as).map mapAlert) := by
  have hlen : ((a :: as).map mapAlert).length > 0 := by simp
  show (if ((a :: as).map mapAlert).length > 0 then some ((a :: as).map mapAlert)
        else none) = some ((a :: as).map mapAlert)
  rw [if_pos hlen]

lemma alerts_key_of_some {r : FormattedResponse} {l : List AlertOut}
    (h : r.alerts = some l) : "alerts" ∈ serializedKeys r := by
  unfold serializedKeys
  rw [h]
  simp

lemma alerts_key_of_none {r : FormattedResponse} (h : r.alerts = none) :
    "alerts" ∉ serializedKeys r := by
  unfold serializedKeys
  rw [h]
  decide

lemma summary_key_mem (r : FormattedResponse) :
    "tomorrowDaySummary" ∈ serializedKeys r := by
  unfold serializedKeys
  exact List.mem_append_left _ (by decide)

lemma leadsWith_ex {pat s : List Char} (h : leadsWith pat s = true) :
    ∃ t, s = pat ++ t := by
  induction pat generalizing s with
  | nil => exact ⟨s, rfl⟩
  | cons a as ih =>
      cases s with
      | nil => simp [leadsWith] at h
      | cons b bs =>
          have hab : (a == b) = true ∧ leadsWith as bs = true :=
            Bool.and_eq_true_iff.1 h
          obtain ⟨t, ht⟩ := ih hab.2
          exact ⟨t, by rw [ht, eq_of_beq hab.1]; rfl⟩

lemma leadsWith_self (p t : List Char) : leadsWith p (p ++ t) = true := by
  induction p with
  | nil => rfl
  | cons a as ih => simp [leadsWith, ih]

lemma containsSub_parts (pre pat suf : List Char) (hpat : pat ≠ []) :
    containsSub (pre ++ pat ++ suf) pat = true := by
  induction pre with
  | nil =>
      cases pat with
      | nil => exact absurd rfl hpat
      | cons a as =>
          show containsSub (a :: (as ++ suf)) (a :: as) = true
          unfold containsSub
          rw [show a :: (as ++ suf) = (a :: as) ++ suf from rfl, leadsWith_self]
          rfl
  | cons c cs ih =>
      show containsSub (c :: (cs ++ pat ++ suf)) pat = true
      unfold containsSub
      rw [ih]
      simp

/-- Correctness of the single-occurrence replacement: when `pat` occurs in
`s`, the string splits as `pre ++ pat ++ suf` and the replacement result is
`pre ++ repl ++ suf`. -/
lemma replaceFirstL_spec (pat repl s : List Char) (hpat : pat ≠ [])
    (h : containsSub s pat = true) :
    ∃ pre suf, s = pre ++ pat ++ suf ∧
      replaceFirstL pat repl s = pre ++ repl ++ suf := by
  induction s with
  | nil =>
      unfold containsSub at h
      exact absurd (List.isEmpty_iff.1 h) hpat
  | cons c rest ih =>
      by_cases hp : leadsWith pat (c :: rest) = true
      · obtain ⟨t, ht⟩ := leadsWith_ex hp
        refine ⟨[], t, by simpa using ht, ?_⟩
        unfold replaceFirstL
        rw [if_pos hp, ht, List.drop_left]
        rfl
      · have h2 : containsSub rest pat = true := by
          unfold containsSub at h
          rcases Bool.or_eq_true_iff.1 h with h1 | h1
          · exact absurd h1 hp
          · exact h1
        obtain ⟨pre, suf, hs, hr⟩ := ih h2
        refine ⟨c :: pre, suf, by simp [hs], ?_⟩
        unfold replaceFirstL
        rw [if_neg hp, hr]
        rfl

lemma strData_ne_nil {k : String} (hk : k ≠ "") : k.data ≠ [] := by
  intro hd
  apply hk
  cases k with
  | mk d => cases hd; rfl

/-! ## Claim C1 -/

/-- Claim C1 as stated is false: the payload `P24` passes the structural
check, yet its normalized response carries the fractional uv index 9/2,
because the route copies `current.uv` through without rounding. -/
theorem C1_counterexample :
    uvIndexOf (processPayload P24) = some (mkRat 9 2) ∧ ¬ isInt (mkRat 9 2) := by
  constructor
  · rfl
  · decide

/-- Claim C1 (amended): for every payload accepted by the structural check
with a nonempty forecast-day array, every numeric field that the route passes
through Math.round — temperature, feelsLike, high, low, windSpeed,
visibility, the temp and windSpeed of every entry of both hourly lists, the
temp/min/max of the tomorrow day summary, and the temp/min/max of every
dailyForecast entry — is an integer.  The fields humidity, windDirection,
uvIndex, pressure, the hourly humidity values and the dailyForecast dt are
copied unrounded and carry whatever value the provider sent. -/
theorem C1_rounded_fields_int (p : WeatherPayload) (loc : Location) (cur : Current)
    (today : ForecastDay) (rest : List ForecastDay)
    (hl : p.location = some loc) (hc : p.current = some cur)
    (hf : payloadDays p = some (today :: rest)) :
    processPayload p = .success (formatResponse loc cur today rest (sourceAlerts p)) ∧
    roundedFieldsInt (formatResponse loc cur today rest (sourceAlerts p)) :=
  ⟨processPayload_success hl hc hf, formatResponse_rounded loc cur today rest (sourceAlerts p)⟩

/-- Witness for C1 at the concrete payload `P24`. -/
theorem C1_witness :
    processPayload P24 =
      .success (formatResponse loc0 cur0 fdToday24 [] (sourceAlerts P24)) ∧
    roundedFieldsInt (formatResponse loc0 cur0 fdToday24 [] (sourceAlerts P24)) :=
  C1_rounded_fields_int P24 loc0 cur0 fdToday24 [] rfl rfl rfl

/-! ## Claim C2 -/

/-- Claim C2: the code is wrong on an alert whose description field is
absent.  The source computes
desc?.substring(0, 200) + (desc?.length > 200 ? "..." : "") || "";
with desc undefined the concatenation coerces undefined to the text
"undefined", which is truthy, so the || "" fallback never fires and the
mapped description is the literal text "undefined" instead of the empty
string the spec requires.  This theorem evaluates the route at that failing
input, both at the single-alert mapper and through the whole pipeline. -/
theorem C2_desc_undefined :
    mapAlert alert0 =
      { title := "Storm", description := "undefined", severity := "moderate" } ∧
    processPayload PAlert =
      .success (formatResponse loc0 cur0 fdPlain [] [alert0]) ∧
    (formatResponse loc0 cur0 fdPlain [] [alert0]).alerts =
      some [{ title := "Storm", description := "undefined", severity := "moderate" }] := by
  refine ⟨rfl, ?_, ?_⟩ <;> decide

/-! ## Claim C3 -/

/-- Claim C3: for every accepted payload, when the source alert list is
empty or absent the serialized response omits the alerts key entirely, and
when at least one alert is present the alerts field carries exactly one
mapped entry per source alert. -/
theorem C3_alerts_omission (p : WeatherPayload) (loc : Location) (cur : Current)
    (today : ForecastDay) (rest : List ForecastDay)
    (hl : p.location = some loc) (hc : p.current = some cur)
    (hf : payloadDays p = some (today :: rest)) :
    processPayload p = .success (formatResponse loc cur today rest (sourceAlerts p)) ∧
    (sourceAlerts p = [] →
      (formatResponse loc cur today rest (sourceAlerts p)).alerts = none ∧
      "alerts" ∉ serializedKeys (formatResponse loc cur today rest (sourceAlerts p))) ∧
    (sourceAlerts p ≠ [] →
      (formatResponse loc cur today rest (sourceAlerts p)).alerts =
        some ((sourceAlerts p).map mapAlert) ∧
      "alerts" ∈ serializedKeys (formatResponse loc cur today rest (sourceAlerts p))) := by
  refine ⟨processPayload_success hl hc hf, ?_, ?_⟩
  · intro h
    rw [h]
    exact ⟨formatResponse_alerts_nil loc cur today rest,
      alerts_key_of_none (formatResponse_alerts_nil loc cur today rest)⟩
  · intro h
    cases hsa : sourceAlerts p with
    | nil => exact absurd hsa h
    | cons a as =>
        exact ⟨formatResponse_alerts_cons loc cur today rest a as,
          alerts_key_of_some (formatResponse_alerts_cons loc cur today rest a as)⟩

/-- Witness for C3: a payload with one alert keeps the alerts key with one
mapped entry, a payload with no alerts drops it. -/
theorem C3_witness :
    (formatResponse loc0 cur0 fdPlain [] (sourceAlerts PAlert)).alerts =
      some ((sourceAlerts PAlert).map mapAlert) ∧
    "alerts" ∈ serializedKeys (formatResponse loc0 cur0 fdPlain [] (sourceAlerts PAlert)) ∧
    (formatResponse loc0 cur0 fdToday24 [] (sourceAlerts P24)).alerts = none ∧
    "alerts" ∉ serializedKeys (formatResponse loc0 cur0 fdToday24 [] (sourceAlerts P24)) := by
  have h1 := (C3_alerts_omission PAlert loc0 cur0 fdPlain [] rfl rfl rfl).2.2 (by decide)
  have h2 := (C3_alerts_omission P24 loc0 cur0 fdToday24 [] rfl rfl rfl).2.1 rfl
  exact ⟨h1.1, h1.2, h2.1, h2.2⟩

/-! ## Claim C4 -/

/-- Claim C4 as stated is false: a request carrying both a city and a full
coordinate pair is not answered with 400; the coordinate branch is tested
first, so one outbound call is planned with the coordinate query. -/
theorem C4_counterexample :
    callQueryOf (routeStart (some "K") (some "Paris") (some "1") (some "2")) = some "1,2" ∧
    statusOfPlan (routeStart (some "K") (some "Paris") (some "1") (some "2")) ≠ some 400 := by
  constructor
  · rfl
  · decide

/-- Claim C4 (amended): with the credential configured, a truthy coordinate
pair always wins and produces exactly one outbound call with the query
lat,lon — even when a city is also supplied; a truthy city without a full
coordinate pair produces exactly one outbound call with the raw city string;
and only when neither form is available does the route answer 400 with the
missing-input message and plan no call. -/
theorem C4_query_selection (apiKey city lat lon : Option String) (k : String)
    (hk : apiKey = some k) (hk2 : k ≠ "") :
    (strTruthy lat = true → strTruthy lon = true →
      routeStart apiKey city lat lon =
        .call (lat.getD "" ++ "," ++ lon.getD "")
          ("Fetching weather data from: " ++
            jsReplaceFirst (buildUrl k (lat.getD "" ++ "," ++ lon.getD "")) k "[API_KEY]")
          (buildUrl k (lat.getD "" ++ "," ++ lon.getD ""))) ∧
    ((strTruthy lat && strTruthy lon) = false → strTruthy city = true →
      routeStart apiKey city lat lon =
        .call (city.getD "")
          ("Fetching weather data from: " ++
            jsReplaceFirst (buildUrl k (city.getD "")) k "[API_KEY]")
          (buildUrl k (city.getD ""))) ∧
    ((strTruthy lat && strTruthy lon) = false → strTruthy city = false →
      routeStart apiKey city lat lon =
        .err 400 "Please provide either a city name or coordinates") := by
  subst hk
  have hkt : strTruthy (some k) = true := by
    simpa [strTruthy] using hk2
  refine ⟨?_, ?_, ?_⟩
  · intro h1 h2
    unfold routeStart queryParamOf
    rw [hkt, h1, h2]
    simp
  · intro h1 h2
    unfold routeStart queryParamOf
    rw [hkt, h1, h2]
    simp
  · intro h1 h2
    unfold routeStart queryParamOf
    rw [hkt, h1, h2]
    simp

/-- Witness for C4: coordinate call, city call, and 400 on missing input. -/
theorem C4_witness :
    routeStart (some "K") none (some "48") (some "2") =
      .call ("48" ++ "," ++ "2")
        ("Fetching weather data from: " ++
          jsReplaceFirst (buildUrl "K" ("48" ++ "," ++ "2")) "K" "[API_KEY]")
        (buildUrl "K" ("48" ++ "," ++ "2")) ∧
    routeStart (some "K") (some "Lima") none none =
      .call "Lima"
        ("Fetching weather data from: " ++
          jsReplaceFirst (buildUrl "K" "Lima") "K" "[API_KEY]")
        (buildUrl "K" "Lima") ∧
    routeStart (some "K") none none none =
      .err 400 "Please provide either a city name or coordinates" := by
  refine ⟨?_, ?_, ?_⟩
  · exact (C4_query_selection (some "K") none (some "48") (some "2") "K" rfl
      (by decide)).1 (by decide) (by decide)
  · exact (C4_query_selection (some "K") (some "Lima") none none "K" rfl
      (by decide)).2.1 (by decide) (by decide)
  · exact (C4_query_selection (some "K") none none none "K" rfl
      (by decide)).2.2 (by decide) (by decide)

/-! ## Claim C5 -/

/-- Claim C5 as stated is false in one respect: on a single-day payload the
route assigns null to tomorrowDaySummary, and JSON serialization keeps a
null-valued key, so the key is present in the response rather than absent.
At the concrete single-day payload with 24 hour records, hourlyForecast has
24 entries and tomorrowHourlyForecast is empty as claimed, yet the
tomorrowDaySummary key is serialized (with value null). -/
theorem C5_counterexample :
    hourlyLenOf (processPayload P24) = some 24 ∧
    tomorrowHourlyLenOf (processPayload P24) = some 0 ∧
    summaryValOf (processPayload P24) = some none ∧
    "tomorrowDaySummary" ∈ keysOf (processPayload P24) := by
  refine ⟨?_, ?_, ?_, ?_⟩ <;> decide

/-- Claim C5 (amended): for every accepted payload, an absent or non-array
hour field of today (or of tomorrow, when a tomorrow day exists) yields an
empty — never null or missing — hourly list; and for a single-day payload,
hourlyForecast has one entry per hour record, tomorrowHourlyForecast is
empty, and tomorrowDaySummary is null: its key is serialized with a null
value rather than omitted. -/
theorem C5_hourly_defaults (p : WeatherPayload) (loc : Location) (cur : Current)
    (today : ForecastDay) (rest : List ForecastDay)
    (hl : p.location = some loc) (hc : p.current = some cur)
    (hf : payloadDays p = some (today :: rest)) :
    processPayload p = .success (formatResponse loc cur today rest (sourceAlerts p)) ∧
    (today.hour = none →
      (formatResponse loc cur today rest (sourceAlerts p)).hourlyForecast = []) ∧
    (∀ t ts, rest = t :: ts → t.hour = none →
      (formatResponse loc cur today rest (sourceAlerts p)).tomorrowHourlyForecast = []) ∧
    (rest = [] →
      (∀ hs, today.hour = some hs →
        (formatResponse loc cur today rest (sourceAlerts p)).hourlyForecast.length = hs.length) ∧
      (formatResponse loc cur today rest (sourceAlerts p)).tomorrowHourlyForecast = [] ∧
      (formatResponse loc cur today rest (sourceAlerts p)).tomorrowDaySummary = none ∧
      "tomorrowDaySummary" ∈ serializedKeys (formatResponse loc cur today rest (sourceAlerts p))) := by
  refine ⟨processPayload_success hl hc hf, ?_, ?_, ?_⟩
  · intro h
    show hourListOf today.hour = []
    rw [h]
    rfl
  · intro t ts hr ht
    subst hr
    show hourListOf t.hour = []
    rw [ht]
    rfl
  · intro hr
    subst hr
    refine ⟨?_, rfl, rfl, summary_key_mem _⟩
    intro hs hhs
    show (hourListOf today.hour).length = hs.length
    rw [hhs]
    simp [hourListOf]

/-- Witness for C5 at the concrete single-day payload `P24`. -/
theorem C5_witness :
    (formatResponse loc0 cur0 fdToday24 [] (sourceAlerts P24)).hourlyForecast.length =
      (List.replicate 24 h0).length ∧
    (formatResponse loc0 cur0 fdToday24 [] (sourceAlerts P24)).tomorrowHourlyForecast = [] ∧
    (formatResponse loc0 cur0 fdToday24 [] (sourceAlerts P24)).tomorrowDaySummary = none ∧
    "tomorrowDaySummary" ∈ serializedKeys (formatResponse loc0 cur0 fdToday24 [] (sourceAlerts P24)) := by
  have h := (C5_hourly_defaults P24 loc0 cur0 fdToday24 [] rfl rfl rfl).2.2.2 rfl
  exact ⟨h.1 (List.replicate 24 h0) rfl, h.2.1, h.2.2.1, h.2.2.2⟩

/-! ## Claim C6 -/

/-- Claim C6 as stated is false: the route maps the whole forecastday array
with no cap, so the accepted eight-day payload `P8` produces eight
dailyForecast entries, more than the claimed maximum of seven. -/
theorem C6_counterexample :
    dailyLenOf (processPayload P8) = some 8 ∧ ¬ (8 : Nat) ≤ 7 := by
  refine ⟨?_, by decide⟩
  rfl

/-- Claim C6 (amended): dailyForecast carries exactly one entry per
forecastday record, in source order, each built as dt = epoch, rounded
avg/min/max temperatures, lower-cased condition, original-case description
and the icon token; the route itself enforces no cap of seven — at most
seven entries appear only because the outbound request asks for seven days,
and a seven-entry forecastday array yields exactly seven entries. -/
theorem C6_daily_map (p : WeatherPayload) (loc : Location) (cur : Current)
    (today : ForecastDay) (rest : List ForecastDay)
    (hl : p.location = some loc) (hc : p.current = some cur)
    (hf : payloadDays p = some (today :: rest)) :
    processPayload p = .success (formatResponse loc cur today rest (sourceAlerts p)) ∧
    (formatResponse loc cur today rest (sourceAlerts p)).dailyForecast =
      (today :: rest).map (fun fd =>
        { dt := fd.date_epoch
          temp := (jsRound fd.day.avgtemp_c : ℚ)
          min := (jsRound fd.day.mintemp_c : ℚ)
          max := (jsRound fd.day.maxtemp_c : ℚ)
          condition := jsToLower fd.day.condition.text
          description := fd.day.condition.text
          icon := fd.day.condition.icon }) ∧
    (formatResponse loc cur today rest (sourceAlerts p)).dailyForecast.length =
      (today :: rest).length := by
  refine ⟨processPayload_success hl hc hf, rfl, ?_⟩
  show ((today :: rest).map mkDailyEntry).length = (today :: rest).length
  simp

/-- Witness for C6 at the concrete seven-day payload `P7`. -/
theorem C6_witness :
    processPayload P7 =
      .success (formatResponse loc0 cur0 fdPlain (List.replicate 6 fdPlain) (sourceAlerts P7)) ∧
    (formatResponse loc0 cur0 fdPlain (List.replicate 6 fdPlain) (sourceAlerts P7)).dailyForecast.length =
      (fdPlain :: List.replicate 6 fdPlain).length := by
  have h := C6_daily_map P7 loc0 cur0 fdPlain (List.replicate 6 fdPlain) rfl rfl rfl
  exact ⟨h.1, h.2.2⟩

/-! ## Claim C7 -/

/-- Claim C7: a decoded payload missing any of the three required top-level
sections — location, current, or the forecast-day array — is answered with
status 502 and the literal message, and can never produce a 200 body. -/
theorem C7_structural_502 (p : WeatherPayload)
    (h : p.location = none ∨ p.current = none ∨ payloadDays p = none) :
    processPayload p = .errorOut 502 "Invalid weather data received from service" ∧
    ∀ r, processPayload p ≠ .success r := by
  have hmain : processPayload p =
      .errorOut 502 "Invalid weather data received from service" := by
    unfold processPayload
    rcases h with h | h | h
    · rw [h]
    · cases hl : p.location <;> rw [h]
    · cases hl : p.location <;> cases hc : p.current <;> rw [h]
  refine ⟨hmain, fun r hr => ?_⟩
  rw [hmain] at hr
  exact GETOutcome.noConfusion hr

/-- Witness for C7 at the concrete payload missing the current section. -/
theorem C7_witness :
    processPayload PnoCur = .errorOut 502 "Invalid weather data received from service" :=
  (C7_structural_502 PnoCur (Or.inr (Or.inl rfl))).1

/-! ## Claim C8 -/

/-- Claim C8 as stated is false in its no-leak part: the redaction replaces
only the first occurrence of the credential in the URL, so a request whose
location query is the credential itself puts the credential into the logged
line. -/
theorem C8_counterexample :
    (loggedOf (routeStart (some "SECRETKEY123") (some "SECRETKEY123") none none)).map
      (fun s => strContains s "SECRETKEY123") = some true := by
  decide

/-- Claim C8 (amended): with no credential configured the route answers 500
and plans no outbound call (so nothing credential-bearing is logged); with a
credential configured and a usable location query, exactly one call is
planned and the logged line is the URL with the first occurrence of the
credential replaced by the redaction marker — the credential can still
appear in the log when the URL contains it more than once, for example when
the supplied query itself contains the credential value. -/
theorem C8_credential (city lat lon : Option String) (k : String)
    (hk : k ≠ "") :
    routeStart none city lat lon =
      .err 500 "Weather service is not configured. Please contact the administrator." ∧
    ∀ q, queryParamOf city lat lon = some q →
      routeStart (some k) city lat lon =
        .call q ("Fetching weather data from: " ++
          jsReplaceFirst (buildUrl k q) k "[API_KEY]") (buildUrl k q) ∧
      ∃ pre suf : List Char,
        (buildUrl k q).data = pre ++ k.data ++ suf ∧
        (jsReplaceFirst (buildUrl k q) k "[API_KEY]").data =
          pre ++ "[API_KEY]".data ++ suf := by
  refine ⟨rfl, fun q hq => ?_⟩
  have hkt : strTruthy (some k) = true := by
    simpa [strTruthy] using hk
  constructor
  · unfold routeStart
    rw [hkt, hq]
    rfl
  · have hkd : k.data ≠ [] := strData_ne_nil hk
    have hdecomp : (buildUrl k q).data =
        ("https://api.weatherapi.com/v1/forecast.json?key=").data ++ k.data ++
          ("&q=" ++ encodeURIComponent q ++ "&days=7&aqi=no&alerts=yes").data := by
      show ("https://api.weatherapi.com/v1/forecast.json?key=" ++ k ++ "&q=" ++
        encodeURIComponent q ++ "&days=7&aqi=no&alerts=yes").data = _
      simp [List.append_assoc]
    have hsub : containsSub (buildUrl k q).data k.data = true := by
      rw [hdecomp]
      exact containsSub_parts _ _ _ hkd
    obtain ⟨pre, suf, h1, h2⟩ :=
      replaceFirstL_spec k.data ("[API_KEY]").data (buildUrl k q).data hkd hsub
    exact ⟨pre, suf, h1, h2⟩

/-- Witness for C8: the unconfigured 500 and the redacted single call. -/
theorem C8_witness :
    routeStart none (some "Paris") none none =
      .err 500 "Weather service is not configured. Please contact the administrator." ∧
    routeStart (some "K") (some "Paris") none none =
      .call "Paris" ("Fetching weather data from: " ++
        jsReplaceFirst (buildUrl "K" "Paris") "K" "[API_KEY]") (buildUrl "K" "Paris") := by
  have h := C8_credential (some "Paris") none none "K" (by decide)
  exact ⟨h.1, (h.2 "Paris" rfl).1⟩

/-! ## Claim C9 -/

/-- Claim C9: whenever the forecastday array has a second entry, the
tomorrow day summary is built from that entry by the same mapping as the
second dailyForecast entry — its six fields coincide with that entry — and
it is produced whatever the second entry carries in its hour field. -/
theorem C9_tomorrow_summary (p : WeatherPayload) (loc : Location) (cur : Current)
    (d0 d1 : ForecastDay) (ds : List ForecastDay)
    (hl : p.location = some loc) (hc : p.current = some cur)
    (hf : payloadDays p = some (d0 :: d1 :: ds)) :
    processPayload p = .success (formatResponse loc cur d0 (d1 :: ds) (sourceAlerts p)) ∧
    (formatResponse loc cur d0 (d1 :: ds) (sourceAlerts p)).tomorrowDaySummary =
      some (mkDailySummary d1.day) ∧
    (formatResponse loc cur d0 (d1 :: ds) (sourceAlerts p)).dailyForecast[1]? =
      some (mkDailyEntry d1) ∧
    (mkDailySummary d1.day).temp = (mkDailyEntry d1).temp ∧
    (mkDailySummary d1.day).min = (mkDailyEntry d1).min ∧
    (mkDailySummary d1.day).max = (mkDailyEntry d1).max ∧
    (mkDailySummary d1.day).condition = (mkDailyEntry d1).condition ∧
    (mkDailySummary d1.day).description = (mkDailyEntry d1).description ∧
    (mkDailySummary d1.day).icon = (mkDailyEntry d1).icon := by
  refine ⟨processPayload_success hl hc hf, rfl, ?_, rfl, rfl, rfl, rfl, rfl, rfl⟩
  show ((d0 :: d1 :: ds).map mkDailyEntry)[1]? = some (mkDailyEntry d1)
  simp

/-- Witness for C9 at the concrete two-day payload `P2`, whose second day
has no hourly array. -/
theorem C9_witness :
    (formatResponse loc0 cur0 fdToday24 [fdPlain] (sourceAlerts P2)).tomorrowDaySummary =
      some (mkDailySummary fdPlain.day) ∧
    (formatResponse loc0 cur0 fdToday24 [fdPlain] (sourceAlerts P2)).dailyForecast[1]? =
      some (mkDailyEntry fdPlain) := by
  have h := C9_tomorrow_summary P2 loc0 cur0 fdToday24 fdPlain [] rfl rfl rfl
  exact ⟨h.2.1, h.2.2.1⟩

/-! ## Claim C10 -/

/-- Claim C10: the credential check runs before the location-input check,
so with no credential configured the route answers 500 for every input —
in particular for a request carrying neither a city nor coordinates, which
would otherwise get the 400 missing-input answer. -/
theorem C10_credential_before_validation (city lat lon : Option String) :
    routeStart none city lat lon =
      .err 500 "Weather service is not configured. Please contact the administrator." :=
  rfl

end WeatherRoute
